import Mathlib

/-!
Shallow embedding of the credit-risk scoring core of the repository.

Python numeric conventions are modelled over the exact rationals:
float values become `ℚ`, Python `int(x)` (truncation toward zero) becomes
`pyTrunc`, and Python `round(x, k)` (round half to even) becomes `pyRound`.
Optional request fields become `Option` values, and the duck-typed request
object becomes the `CreditRequest` structure.
-/

/-- Python `int(x)`: truncation toward zero. -/
def pyTrunc (q : ℚ) : ℤ := if 0 ≤ q then ⌊q⌋ else ⌈q⌉

/-- Python `round(x)` to an integer: round half to even. -/
def roundHalfEven (q : ℚ) : ℤ :=
  if q - ⌊q⌋ < 1/2 then ⌊q⌋
  else if 1/2 < q - ⌊q⌋ then ⌊q⌋ + 1
  else if Even ⌊q⌋ then ⌊q⌋ else ⌊q⌋ + 1

/-- Python `round(x, k)`: round half to even at `k` decimal digits. -/
def pyRound (q : ℚ) (k : ℕ) : ℚ := (roundHalfEven (q * 10 ^ k) : ℚ) / 10 ^ k

namespace App

/-- The duck-typed request object (`CreditRequest` in `app/models.py`).
Core fields are required; network and address fields are optional.
Field names ending in `ratio` carry a `_val` suffix. -/
structure CreditRequest where
  user_id : String
  age : ℤ
  occupation : String
  monthly_income : ℚ
  transaction_count_30d : ℤ
  avg_transaction_amount : ℚ
  location_risk_score : ℚ
  device_change_frequency : ℤ
  previous_fraud_flag : ℤ
  account_age_months : ℤ
  chargeback_count : ℤ
  avg_contact_credit_score : Option ℚ
  low_risk_contact_ratio_val : Option ℚ
  high_risk_contact_ratio_val : Option ℚ
  network_stability_ratio_val : Option ℚ
  address_change_count_12m : Option ℤ
  current_address_tenure_months : Option ℤ

/-- Components field of a CTC result (`network_score.py`). -/
structure CTCComponents where
  normalized_credit_score : ℚ
  low_risk_contact_ratio_val : ℚ
  high_risk_contact_ratio_val : ℚ
  network_stability_ratio_val : ℚ
deriving DecidableEq

/-- Community Trust Coefficient computation result (`network_score.py`). -/
structure CTCResult where
  score : ℚ
  available : Bool
  components : Option CTCComponents
  impact_adjustment : ℤ
deriving DecidableEq

/-- Address Stability Score computation result (`network_score.py`). -/
structure AddressStabilityResult where
  score : ℚ
  available : Bool
  tenure_category : String
  impact_adjustment : ℤ
deriving DecidableEq

/-- The value `ctc_score` holds in `compute_ctc` after its final clamp
(the available branch of `network_score.py`, lines 64-89). -/
def ctc_raw (avg_contact_credit_score low_risk high_risk stability : Option ℚ) : ℚ :=
  let avg_credit := avg_contact_credit_score.getD 600
  let low_risk0 := low_risk.getD 0.5
  let high_risk0 := high_risk.getD 0.2
  let stability0 := stability.getD 0.5
  let avg_credit1 := max 300 (min 900 avg_credit)
  let normalized_credit := (avg_credit1 - 300) / 600
  let low_risk1 := max 0 (min 1 low_risk0)
  let high_risk1 := max 0 (min 1 high_risk0)
  let stability1 := max 0 (min 1 stability0)
  max 0 (min 1
    (0.4 * normalized_credit + 0.3 * low_risk1 + 0.2 * stability1 + 0.1 * (1 - high_risk1)))

/-- `compute_ctc` of `network_score.py`. -/
def compute_ctc (avg_contact_credit_score low_risk high_risk stability : Option ℚ) :
    CTCResult :=
  if avg_contact_credit_score.isNone && low_risk.isNone && high_risk.isNone &&
      stability.isNone then
    { score := 0.5, available := false, components := none, impact_adjustment := 0 }
  else
    let avg_credit := avg_contact_credit_score.getD 600
    let low_risk0 := low_risk.getD 0.5
    let high_risk0 := high_risk.getD 0.2
    let stability0 := stability.getD 0.5
    let avg_credit1 := max 300 (min 900 avg_credit)
    let normalized_credit := (avg_credit1 - 300) / 600
    let low_risk1 := max 0 (min 1 low_risk0)
    let high_risk1 := max 0 (min 1 high_risk0)
    let stability1 := max 0 (min 1 stability0)
    let ctc_score := ctc_raw avg_contact_credit_score low_risk high_risk stability
    let impact := pyTrunc ((ctc_score - 0.5) * 2 * 100)
    { score := pyRound ctc_score 3
      available := true
      components := some
        { normalized_credit_score := pyRound normalized_credit 3
          low_risk_contact_ratio_val := pyRound low_risk1 3
          high_risk_contact_ratio_val := pyRound high_risk1 3
          network_stability_ratio_val := pyRound stability1 3 }
      impact_adjustment := max (-100) (min 100 impact) }

/-- The value `ass_score` holds in `compute_address_stability` after its clamp
(the available branch of `network_score.py`, lines 139-157). -/
def address_raw (address_change_count_12m current_address_tenure_months : Option ℤ) : ℚ :=
  let changes := address_change_count_12m.getD 1
  let tenure := current_address_tenure_months.getD 12
  let changes1 := max 0 (min 10 changes)
  let tenure1 := max 0 (min 240 tenure)
  let tenure_score := min 1 ((tenure1 : ℚ) / 24)
  let change_penalty := min 1 ((changes1 : ℚ) / 4)
  let change_score := 1 - change_penalty
  max 0 (min 1 (0.6 * tenure_score + 0.4 * change_score))

/-- `compute_address_stability` of `network_score.py`. -/
def compute_address_stability
    (address_change_count_12m current_address_tenure_months : Option ℤ) :
    AddressStabilityResult :=
  if address_change_count_12m.isNone && current_address_tenure_months.isNone then
    { score := 0.5, available := false, tenure_category := "Unknown",
      impact_adjustment := 0 }
  else
    let changes := address_change_count_12m.getD 1
    let tenure := current_address_tenure_months.getD 12
    let changes1 := max 0 (min 10 changes)
    let tenure1 := max 0 (min 240 tenure)
    let ass_score := address_raw address_change_count_12m current_address_tenure_months
    let category :=
      if 18 ≤ tenure1 ∧ changes1 ≤ 1 then "High"
      else if 6 ≤ tenure1 ∨ changes1 ≤ 2 then "Medium"
      else "Low"
    let impact := pyTrunc ((ass_score - 0.5) * 2 * 50)
    { score := pyRound ass_score 3
      available := true
      tenure_category := category
      impact_adjustment := max (-50) (min 50 impact) }

/-- Result of `compute_network_adjustments` (`network_score.py`). -/
structure NetworkAdjustments where
  ctc : CTCResult
  address_stability : AddressStabilityResult
  total_adjustment : ℤ
deriving DecidableEq

/-- `compute_network_adjustments` of `network_score.py`: sums the CTC and
address impacts and clamps the sum to the combined cap of plus or minus 120. -/
def compute_network_adjustments
    (avg_contact_credit_score low_risk high_risk stability : Option ℚ)
    (address_change_count_12m current_address_tenure_months : Option ℤ) :
    NetworkAdjustments :=
  let ctc := compute_ctc avg_contact_credit_score low_risk high_risk stability
  let address := compute_address_stability address_change_count_12m
    current_address_tenure_months
  { ctc := ctc
    address_stability := address
    total_adjustment :=
      max (-120) (min 120 (ctc.impact_adjustment + address.impact_adjustment)) }

/-- Income rhythm stability score result (`stability_scores.py`). -/
structure IncomeRhythmResult where
  score : ℚ
  available : Bool
  rhythm_category : String
  impact_adjustment : ℤ
deriving DecidableEq

/-- The value `rhythm_score` holds in `compute_income_rhythm` after its clamp. -/
def income_rhythm_raw (cv seasonal : Option ℚ) (freq : Option ℤ) : ℚ :=
  let cv0 := cv.getD 0.3
  let seasonal0 := seasonal.getD 1.0
  let freq0 := freq.getD 12
  let cv1 := max 0 (min 2.0 cv0)
  let cv_score := 1 - min 1 (cv1 / 0.5)
  let freq_score := min 1 ((freq0 : ℚ) / 12)
  max 0 (min 1 ((0.6 * cv_score + 0.4 * freq_score) * seasonal0))

/-- `compute_income_rhythm` of `stability_scores.py`.  Note: availability is
decided from `cv` and `seasonal` only; `freq` does not enter the check. -/
def compute_income_rhythm (cv seasonal : Option ℚ) (freq : Option ℤ) :
    IncomeRhythmResult :=
  if cv.isNone && seasonal.isNone then
    { score := 0.5, available := false, rhythm_category := "Unknown",
      impact_adjustment := 0 }
  else
    let s := income_rhythm_raw cv seasonal freq
    { score := pyRound s 3
      available := true
      rhythm_category :=
        if 0.7 ≤ s then "Stable" else if 0.4 ≤ s then "Variable" else "Irregular"
      impact_adjustment := max (-70) (min 70 (pyTrunc ((s - 0.5) * 2 * 70))) }

/-- Savings behavior score result (`stability_scores.py`). -/
structure SavingsCadenceResult where
  score : ℚ
  available : Bool
  cadence_category : String
  impact_adjustment : ℤ
deriving DecidableEq

/-- The value `savings_score` holds in `compute_savings_cadence` after the
escrow bonus and the upper cap at 1 (there is no lower clamp). -/
def savings_cadence_raw (saves : Option ℚ) (persistence : Option ℤ)
    (escrow : Option Bool) : ℚ :=
  let saves0 := saves.getD 0
  let persistence0 := persistence.getD 0
  let escrow0 := escrow.getD false
  let freq_score := min 1 (saves0 / 4)
  let persist_score := min 1 ((persistence0 : ℚ) / 12)
  let escrow_bonus : ℚ := if escrow0 then 0.1 else 0
  let savings_score :=
    0.5 * freq_score + 0.4 * persist_score + 0.1 * (if escrow0 then 1 else 0)
  min 1 (savings_score + escrow_bonus)

/-- `compute_savings_cadence` of `stability_scores.py`.  Availability is
decided from `saves` and `persistence` only; `escrow` does not enter. -/
def compute_savings_cadence (saves : Option ℚ) (persistence : Option ℤ)
    (escrow : Option Bool) : SavingsCadenceResult :=
  if saves.isNone && persistence.isNone then
    { score := 0.5, available := false, cadence_category := "Unknown",
      impact_adjustment := 0 }
  else
    let s := savings_cadence_raw saves persistence escrow
    { score := pyRound s 3
      available := true
      cadence_category :=
        if 0.7 ≤ s then "Strong" else if 0.4 ≤ s then "Moderate"
        else if 0.1 < s then "Weak" else "None"
      impact_adjustment := max (-50) (min 50 (pyTrunc ((s - 0.5) * 2 * 50))) }

/-- Device persistence score result (`stability_scores.py`). -/
structure DevicePersistenceResult where
  score : ℚ
  available : Bool
  trust_level : String
  impact_adjustment : ℤ
deriving DecidableEq

/-- The value `device_score` holds in `compute_device_persistence`
(no final clamp in the source). -/
def device_persistence_raw (tenure os_changes reinstalls : Option ℤ) : ℚ :=
  let tenure0 := tenure.getD 6
  let os_changes0 := os_changes.getD 1
  let reinstalls0 := reinstalls.getD 0
  let tenure_score := min 1 ((tenure0 : ℚ) / 24)
  let churn_penalty := min 1 (((os_changes0 + reinstalls0 : ℤ) : ℚ) / 6)
  let churn_score := 1 - churn_penalty
  0.6 * tenure_score + 0.4 * churn_score

/-- `compute_device_persistence` of `stability_scores.py`.  Availability is
decided from `tenure` and `os_changes` only; `reinstalls` does not enter. -/
def compute_device_persistence (tenure os_changes reinstalls : Option ℤ) :
    DevicePersistenceResult :=
  if tenure.isNone && os_changes.isNone then
    { score := 0.5, available := false, trust_level := "Unknown",
      impact_adjustment := 0 }
  else
    let s := device_persistence_raw tenure os_changes reinstalls
    { score := pyRound s 3
      available := true
      trust_level :=
        if 0.7 ≤ s then "High" else if 0.4 ≤ s then "Medium" else "Low"
      impact_adjustment := max (-40) (min 40 (pyTrunc ((s - 0.5) * 2 * 40))) }

/-- Expense elasticity score result (`stability_scores.py`). -/
structure ExpenseElasticityResult where
  score : ℚ
  available : Bool
  elasticity_type : String
  impact_adjustment : ℤ
deriving DecidableEq

/-- The value `elasticity_score` holds in `compute_expense_elasticity`
(no final clamp in the source). -/
def expense_elasticity_raw (correlation volatility : Option ℚ) : ℚ :=
  let correlation0 := correlation.getD 0.5
  let volatility0 := volatility.getD 0.3
  let volatility_score := 1 - min 1 volatility0
  let correlation_score := max 0 (min 1 (1 - |correlation0 - 0.6| * 2))
  0.6 * volatility_score + 0.4 * correlation_score

/-- `compute_expense_elasticity` of `stability_scores.py`. -/
def compute_expense_elasticity (correlation volatility : Option ℚ) :
    ExpenseElasticityResult :=
  if correlation.isNone && volatility.isNone then
    { score := 0.5, available := false, elasticity_type := "Unknown",
      impact_adjustment := 0 }
  else
    let s := expense_elasticity_raw correlation volatility
    { score := pyRound s 3
      available := true
      elasticity_type :=
        if 0.7 ≤ s then "Controlled" else if 0.4 ≤ s then "Flexible" else "Volatile"
      impact_adjustment := max (-40) (min 40 (pyTrunc ((s - 0.5) * 2 * 40))) }

/-- Utility payment stability score result (`stability_scores.py`). -/
structure UtilityStabilityResult where
  score : ℚ
  available : Bool
  payment_pattern : String
  impact_adjustment : ℤ
deriving DecidableEq

/-- The value `utility_score` holds in `compute_utility_stability`
(no final clamp in the source). -/
def utility_stability_raw (ontime variance : Option ℚ) (months : Option ℤ) : ℚ :=
  let ontime0 := ontime.getD 0.8
  let variance0 := variance.getD 0.2
  let months0 := months.getD 12
  let ontime_score := min 1 ontime0
  let variance_score := 1 - min 1 variance0
  let history_score := min 1 ((months0 : ℚ) / 24)
  0.5 * ontime_score + 0.3 * variance_score + 0.2 * history_score

/-- `compute_utility_stability` of `stability_scores.py`.  Availability is
decided from `ontime` and `variance` only; `months` does not enter. -/
def compute_utility_stability (ontime variance : Option ℚ) (months : Option ℤ) :
    UtilityStabilityResult :=
  if ontime.isNone && variance.isNone then
    { score := 0.5, available := false, payment_pattern := "Unknown",
      impact_adjustment := 0 }
  else
    let s := utility_stability_raw ontime variance months
    { score := pyRound s 3
      available := true
      payment_pattern :=
        if 0.8 ≤ s then "Consistent" else if 0.5 ≤ s then "Variable" else "Irregular"
      impact_adjustment := max (-35) (min 35 (pyTrunc ((s - 0.5) * 2 * 35))) }

/-- Merchant loyalty score result (`stability_scores.py`). -/
structure MerchantLoyaltyResult where
  score : ℚ
  available : Bool
  loyalty_tier : String
  impact_adjustment : ℤ
deriving DecidableEq

/-- The value `loyalty_score` holds in `compute_merchant_loyalty`
(no final clamp in the source). -/
def merchant_loyalty_raw (repeat0 refunds disputes : Option ℚ) : ℚ :=
  let repeat1 := repeat0.getD 0.5
  let refunds0 := refunds.getD 0.05
  let disputes0 := disputes.getD 0.01
  let repeat_score := min 1 repeat1
  let refund_score := 1 - min 1 (refunds0 * 10)
  let dispute_score := 1 - min 1 (disputes0 * 20)
  0.4 * repeat_score + 0.35 * refund_score + 0.25 * dispute_score

/-- `compute_merchant_loyalty` of `stability_scores.py`.  Availability is
decided from `repeat0` and `refunds` only; `disputes` does not enter. -/
def compute_merchant_loyalty (repeat0 refunds disputes : Option ℚ) :
    MerchantLoyaltyResult :=
  if repeat0.isNone && refunds.isNone then
    { score := 0.5, available := false, loyalty_tier := "Unknown",
      impact_adjustment := 0 }
  else
    let s := merchant_loyalty_raw repeat0 refunds disputes
    { score := pyRound s 3
      available := true
      loyalty_tier :=
        if 0.75 ≤ s then "Premium" else if 0.5 ≤ s then "Standard" else "Low"
      impact_adjustment := max (-30) (min 30 (pyTrunc ((s - 0.5) * 2 * 30))) }

/-- Repayment velocity score result (`stability_scores.py`). -/
structure RepaymentVelocityResult where
  score : ℚ
  available : Bool
  velocity_category : String
  impact_adjustment : ℤ
deriving DecidableEq

/-- The normalization step of `compute_repayment_velocity`: divide the three
shares by their sum when the sum is positive, otherwise leave them as is. -/
def repayment_norm (early ontime late : ℚ) : ℚ × ℚ × ℚ :=
  if 0 < early + ontime + late then
    (early / (early + ontime + late), ontime / (early + ontime + late),
      late / (early + ontime + late))
  else (early, ontime, late)

/-- The value `velocity_score` holds in `compute_repayment_velocity`
(no clamp in the source). -/
def repayment_velocity_raw (early ontime late : Option ℚ) : ℚ :=
  let n := repayment_norm (early.getD 0.2) (ontime.getD 0.7) (late.getD 0.1)
  n.1 * 1.0 + n.2.1 * 0.7 + n.2.2 * 0.2

/-- `compute_repayment_velocity` of `stability_scores.py`.  Availability is
decided from `early` and `ontime` only; `late` does not enter. -/
def compute_repayment_velocity (early ontime late : Option ℚ) :
    RepaymentVelocityResult :=
  if early.isNone && ontime.isNone then
    { score := 0.5, available := false, velocity_category := "Unknown",
      impact_adjustment := 0 }
  else
    let n := repayment_norm (early.getD 0.2) (ontime.getD 0.7) (late.getD 0.1)
    let s := repayment_velocity_raw early ontime late
    { score := pyRound s 3
      available := true
      velocity_category :=
        if 0.4 ≤ n.1 then "Early Payer" else if 0.7 ≤ n.2.1 then "On-Time"
        else "Late Tendency"
      impact_adjustment := max (-50) (min 50 (pyTrunc ((s - 0.5) * 2 * 50))) }

/-- Geo-resilience score result (`stability_scores.py`). -/
structure GeoResilienceResult where
  score : ℚ
  available : Bool
  resilience_level : String
  impact_adjustment : ℤ
deriving DecidableEq

/-- The value `resilience_score` holds in `compute_geo_resilience`
(no final clamp in the source). -/
def geo_resilience_raw (local_index correlation diversity : Option ℚ) : ℚ :=
  let local0 := local_index.getD 0.5
  let correlation0 := correlation.getD 0.5
  let diversity0 := diversity.getD 0.5
  let correlation_score := 1 - |correlation0|
  0.4 * correlation_score + 0.3 * local0 + 0.3 * diversity0

/-- `compute_geo_resilience` of `stability_scores.py`.  Availability is
decided from `local_index` and `correlation` only; `diversity` does not enter. -/
def compute_geo_resilience (local_index correlation diversity : Option ℚ) :
    GeoResilienceResult :=
  if local_index.isNone && correlation.isNone then
    { score := 0.5, available := false, resilience_level := "Unknown",
      impact_adjustment := 0 }
  else
    let s := geo_resilience_raw local_index correlation diversity
    { score := pyRound s 3
      available := true
      resilience_level :=
        if 0.7 ≤ s then "High" else if 0.4 ≤ s then "Medium" else "Low"
      impact_adjustment := max (-40) (min 40 (pyTrunc ((s - 0.5) * 2 * 40))) }

/-- One comprehension entry of `compute_stability_composite`: present and
available signals contribute (name, weight, score, impact); others drop out. -/
def sig_entry (name : String) (w : ℚ) (available : Bool) (score : ℚ) (impact : ℤ) :
    List (String × ℚ × ℚ × ℤ) :=
  if available then [(name, w, score, impact)] else []

/-- The available-signal table of `compute_stability_composite`, in the fixed
order and with the fixed weight of each signal (`stability_scores.py`). -/
def stability_entries (ir : Option IncomeRhythmResult)
    (sc : Option SavingsCadenceResult) (dp : Option DevicePersistenceResult)
    (ee : Option ExpenseElasticityResult) (us : Option UtilityStabilityResult)
    (ml : Option MerchantLoyaltyResult) (rv : Option RepaymentVelocityResult)
    (gr : Option GeoResilienceResult) : List (String × ℚ × ℚ × ℤ) :=
  (match ir with
    | some r => sig_entry "income_rhythm" 0.20 r.available r.score r.impact_adjustment
    | none => []) ++
  (match sc with
    | some r => sig_entry "savings_cadence" 0.10 r.available r.score r.impact_adjustment
    | none => []) ++
  (match dp with
    | some r => sig_entry "device_persistence" 0.10 r.available r.score r.impact_adjustment
    | none => []) ++
  (match ee with
    | some r => sig_entry "expense_elasticity" 0.10 r.available r.score r.impact_adjustment
    | none => []) ++
  (match us with
    | some r => sig_entry "utility_stability" 0.10 r.available r.score r.impact_adjustment
    | none => []) ++
  (match ml with
    | some r => sig_entry "merchant_loyalty" 0.10 r.available r.score r.impact_adjustment
    | none => []) ++
  (match rv with
    | some r => sig_entry "repayment_velocity" 0.15 r.available r.score r.impact_adjustment
    | none => []) ++
  (match gr with
    | some r => sig_entry "geo_resilience" 0.15 r.available r.score r.impact_adjustment
    | none => [])

/-- Result of `compute_stability_composite` (`stability_scores.py`). -/
structure StabilityCompositeResult where
  composite_score : ℚ
  available_count : ℕ
  total_adjustment : ℤ
  signal_details : List (String × ℚ × ℤ)
deriving DecidableEq

/-- `compute_stability_composite` of `stability_scores.py`: renormalized
weighted mean over the available signals, with the zero-available fallback of
0.5, an inner guard on a zero weight sum, and the composite cap of plus or
minus 150 on the summed impacts. -/
def compute_stability_composite (ir : Option IncomeRhythmResult)
    (sc : Option SavingsCadenceResult) (dp : Option DevicePersistenceResult)
    (ee : Option ExpenseElasticityResult) (us : Option UtilityStabilityResult)
    (ml : Option MerchantLoyaltyResult) (rv : Option RepaymentVelocityResult)
    (gr : Option GeoResilienceResult) : StabilityCompositeResult :=
  let entries := stability_entries ir sc dp ee us ml rv gr
  if entries.isEmpty then
    { composite_score := 0.5, available_count := 0, total_adjustment := 0,
      signal_details := [] }
  else
    let total_weight := (entries.map (fun e => e.2.1)).sum
    let weighted_score :=
      if 0 < total_weight then
        (entries.map (fun e => e.2.1 * e.2.2.1)).sum / total_weight
      else 0.5
    { composite_score := pyRound weighted_score 3
      available_count := entries.length
      total_adjustment :=
        max (-150) (min 150 ((entries.map (fun e => e.2.2.2)).sum))
      signal_details := entries.map (fun e => (e.1, e.2.2.1, e.2.2.2)) }

/-- `rule_score` of `app/scoring/rule_engine.py`: the base 0-1000 rule score
over the required fields only. -/
def rule_score (req : CreditRequest) : ℤ :=
  let score :=
    (if 100 ≤ req.transaction_count_30d then 300
      else if 50 ≤ req.transaction_count_30d then 200
      else if 20 ≤ req.transaction_count_30d then 120 else 40) +
    (if 1000 ≤ req.avg_transaction_amount then 250
      else if 200 ≤ req.avg_transaction_amount then 150 else 60) +
    pyTrunc (req.location_risk_score * 200) +
    min (req.device_change_frequency * 40) 200 +
    (if req.previous_fraud_flag ≠ 0 then 200 else 0) +
    min (req.chargeback_count * 50) 200
  min score 1000

/-- The dict returned by `enhanced_rule_score` (`app/scoring/rule_engine.py`). -/
structure EnhancedRuleScore where
  base_score : ℤ
  ctc_adjustment : ℤ
  address_adjustment : ℤ
  total_adjustment : ℤ
  adjusted_score : ℤ
  ctc_details : CTCResult
  address_details : AddressStabilityResult
deriving DecidableEq

/-- `enhanced_rule_score` of `app/scoring/rule_engine.py`: subtracts the capped
network adjustment from the base rule score and clamps to 0-1000. -/
def enhanced_rule_score (req : CreditRequest) : EnhancedRuleScore :=
  let base := rule_score req
  let network := compute_network_adjustments req.avg_contact_credit_score
    req.low_risk_contact_ratio_val req.high_risk_contact_ratio_val
    req.network_stability_ratio_val req.address_change_count_12m
    req.current_address_tenure_months
  { base_score := base
    ctc_adjustment :=
      if network.ctc.available then -network.ctc.impact_adjustment else 0
    address_adjustment :=
      if network.address_stability.available then
        -network.address_stability.impact_adjustment
      else 0
    total_adjustment := -network.total_adjustment
    adjusted_score := max 0 (min 1000 (base - network.total_adjustment))
    ctc_details := network.ctc
    address_details := network.address_stability }

/-- The final score fusion of `app/api/credit.py`:
`final_score = int(0.6 * m_score + 0.4 * r_score)`. -/
def fuse_final_score (m_score r_score : ℤ) : ℤ :=
  pyTrunc (0.6 * (m_score : ℚ) + 0.4 * (r_score : ℚ))

/-- The risk band tiers of `app/api/credit.py`. -/
def risk_band (final_score : ℤ) : String :=
  if 700 ≤ final_score then "High"
  else if 350 ≤ final_score then "Moderate"
  else "Low"

/-- `uncertainty_pct` of `assess_full` (`app/api/credit.py`):
`max(5, 25 - available_signals * 2.5)`. -/
def uncertainty_pct (available_signals : ℕ) : ℚ :=
  max 5 (25 - (available_signals : ℚ) * 2.5)

/-- `uncertainty_points` of `assess_full`:
`int(final_score * uncertainty_pct / 100)`. -/
def uncertainty_points (final_score : ℤ) (available_signals : ℕ) : ℤ :=
  pyTrunc ((final_score : ℚ) * uncertainty_pct available_signals / 100)

/-- Lower end of the score range of `assess_full`:
`max(0, final_score - uncertainty_points)`. -/
def score_range_lower (final_score : ℤ) (available_signals : ℕ) : ℤ :=
  max 0 (final_score - uncertainty_points final_score available_signals)

/-- Upper end of the score range of `assess_full`:
`min(1000, final_score + uncertainty_points)`. -/
def score_range_upper (final_score : ℤ) (available_signals : ℕ) : ℤ :=
  min 1000 (final_score + uncertainty_points final_score available_signals)

/-- `pd_estimate` of `assess_full`: `round(prob * 100, 2)`. -/
def pd_estimate (prob : ℚ) : ℚ := pyRound (prob * 100) 2

/-- `pd_lower` of `assess_full`:
`max(0, round(pd_estimate - uncertainty_pct / 2, 2))`. -/
def pd_lower (prob : ℚ) (available_signals : ℕ) : ℚ :=
  max 0 (pyRound (pd_estimate prob - uncertainty_pct available_signals / 2) 2)

/-- `pd_upper` of `assess_full`:
`min(100, round(pd_estimate + uncertainty_pct / 2, 2))`. -/
def pd_upper (prob : ℚ) (available_signals : ℕ) : ℚ :=
  min 100 (pyRound (pd_estimate prob + uncertainty_pct available_signals / 2) 2)

/-- `generate_reason_codes` of `app/scoring/reason_codes.py`: the variant in
the sentinelfraud engine tree, which checks four thresholds only. -/
def generate_reason_codes (req : CreditRequest) : List String :=
  (if req.previous_fraud_flag ≠ 0 then ["R10: Historical fraud flag on account"]
    else []) ++
  (if 1 ≤ req.chargeback_count then ["R11: Chargebacks detected"] else []) ++
  (if 0.7 ≤ req.location_risk_score then ["R07: High-risk location activity"]
    else []) ++
  (if 100 ≤ req.transaction_count_30d ∧ req.avg_transaction_amount < 50 then
    ["R12: High frequency of low-value transactions"] else [])

end App

namespace Backend

/-- `rule_score` of `backend/credit/rule_engine.py`: the minimal parallel
implementation.  It reads the same nine required fields, so it is defined over
the shared request structure. -/
def rule_score (req : App.CreditRequest) : ℤ :=
  let score :=
    (if 100 ≤ req.transaction_count_30d then 300
      else if 50 ≤ req.transaction_count_30d then 200
      else if 20 ≤ req.transaction_count_30d then 120 else 40) +
    (if 1000 ≤ req.avg_transaction_amount then 250
      else if 200 ≤ req.avg_transaction_amount then 150 else 60) +
    pyTrunc (req.location_risk_score * 200) +
    min (req.device_change_frequency * 40) 200 +
    (if req.previous_fraud_flag ≠ 0 then 200 else 0) +
    min (req.chargeback_count * 50) 200
  min score 1000

/-- `generate_reason_codes` of `backend/credit/reason_codes.py`: all six
threshold rules, in order. -/
def generate_reason_codes (req : App.CreditRequest) : List String :=
  (if req.previous_fraud_flag ≠ 0 then ["R10: Historical fraud flag on account"]
    else []) ++
  (if 1 ≤ req.chargeback_count then ["R11: Chargebacks detected"] else []) ++
  (if 0.7 ≤ req.location_risk_score then ["R07: High-risk location activity"]
    else []) ++
  (if 100 ≤ req.transaction_count_30d ∧ req.avg_transaction_amount < 50 then
    ["R12: High frequency of low-value transactions"] else []) ++
  (if 4 ≤ req.device_change_frequency then ["R05: Frequent device changes"]
    else []) ++
  (if req.account_age_months < 6 then ["R03: New account (less than 6 months)"]
    else [])

end Backend

/-- Modelled from the spec wording of the reason-code generator: a
deterministic, order-preserving pass over the six fixed thresholds, each
yielding its fixed code string.  Used to compare the two implementations
against the specified behavior. -/
def spec_reason_codes (req : App.CreditRequest) : List String :=
  ([(decide (req.previous_fraud_flag ≠ 0), "R10: Historical fraud flag on account"),
    (decide (1 ≤ req.chargeback_count), "R11: Chargebacks detected"),
    (decide ((0.7 : ℚ) ≤ req.location_risk_score), "R07: High-risk location activity"),
    (decide (100 ≤ req.transaction_count_30d ∧ req.avg_transaction_amount < 50),
      "R12: High frequency of low-value transactions"),
    (decide (4 ≤ req.device_change_frequency), "R05: Frequent device changes"),
    (decide (req.account_age_months < 6), "R03: New account (less than 6 months)")]
    |>.filter (fun r => r.1)).map (fun r => r.2)

/-- Applicant of Scenario B of the spec: base rule score 500 (transaction
count 100, average amount 200, location risk 0.25, no churn or history), CTC
inputs (750, 0.8, 0.1, 0.7), address tenure 24 with 0 changes. -/
def req_scenario_b : App.CreditRequest :=
  { user_id := "user-b", age := 30, occupation := "analyst",
    monthly_income := 5000,
    transaction_count_30d := 100, avg_transaction_amount := 200,
    location_risk_score := 0.25, device_change_frequency := 0,
    previous_fraud_flag := 0, account_age_months := 12, chargeback_count := 0,
    avg_contact_credit_score := some 750,
    low_risk_contact_ratio_val := some 0.8,
    high_risk_contact_ratio_val := some 0.1,
    network_stability_ratio_val := some 0.7,
    address_change_count_12m := some 0,
    current_address_tenure_months := some 24 }

/-- Applicant with a new account and frequent device changes, below every
other reason-code threshold; no optional field is present. -/
def req_new_device : App.CreditRequest :=
  { user_id := "user-n", age := 25, occupation := "driver",
    monthly_income := 1500,
    transaction_count_30d := 10, avg_transaction_amount := 100,
    location_risk_score := 0.1, device_change_frequency := 5,
    previous_fraud_flag := 0, account_age_months := 2, chargeback_count := 0,
    avg_contact_credit_score := none, low_risk_contact_ratio_val := none,
    high_risk_contact_ratio_val := none, network_stability_ratio_val := none,
    address_change_count_12m := none, current_address_tenure_months := none }

/-- A concrete available income-rhythm signal result, used to exercise the
stability composite with one available signal. -/
def ir_stable : App.IncomeRhythmResult :=
  { score := 0.7, available := true, rhythm_category := "Stable",
    impact_adjustment := 28 }

theorem pyTrunc_of_nonneg {q : ℚ} (h : 0 ≤ q) : pyTrunc q = ⌊q⌋ := by
  simp [pyTrunc, h]

theorem pyTrunc_eq_zero_iff (q : ℚ) : pyTrunc q = 0 ↔ -1 < q ∧ q < 1 := by
  unfold pyTrunc
  split
  · rename_i h
    rw [Int.floor_eq_zero_iff]
    constructor
    · rintro ⟨h0, h1⟩
      exact ⟨by linarith, h1⟩
    · rintro ⟨h0, h1⟩
      exact ⟨h, h1⟩
  · rename_i h
    push_neg at h
    rw [Int.ceil_eq_zero_iff]
    constructor
    · rintro ⟨h0, h1⟩
      exact ⟨h0, by linarith⟩
    · rintro ⟨h0, h1⟩
      exact ⟨h0, le_of_lt h⟩

theorem roundHalfEven_ge_floor (q : ℚ) : ⌊q⌋ ≤ roundHalfEven q := by
  unfold roundHalfEven
  split
  · exact le_refl _
  · split
    · omega
    · split <;> omega

theorem roundHalfEven_le_floor_add_one (q : ℚ) : roundHalfEven q ≤ ⌊q⌋ + 1 := by
  unfold roundHalfEven
  split
  · omega
  · split
    · omega
    · split <;> omega

theorem le_roundHalfEven_of_le {m : ℤ} {q : ℚ} (h : (m : ℚ) ≤ q) :
    m ≤ roundHalfEven q := by
  have hf : m ≤ ⌊q⌋ := Int.le_floor.mpr h
  exact le_trans hf (roundHalfEven_ge_floor q)

theorem roundHalfEven_intCast (m : ℤ) : roundHalfEven (m : ℚ) = m := by
  unfold roundHalfEven
  rw [Int.floor_intCast]
  norm_num

theorem roundHalfEven_le_of_le {m : ℤ} {q : ℚ} (h : q ≤ (m : ℚ)) :
    roundHalfEven q ≤ m := by
  have hf : ⌊q⌋ ≤ m := by
    have := Int.floor_le_floor h
    rwa [Int.floor_intCast] at this
  rcases lt_or_eq_of_le hf with hlt | heq
  · exact le_trans (roundHalfEven_le_floor_add_one q) (by omega)
  · have hq : q = (m : ℚ) := by
      have h1 : (⌊q⌋ : ℚ) ≤ q := Int.floor_le q
      rw [heq] at h1
      linarith
    rw [hq, roundHalfEven_intCast]

theorem pyRound_eq_self {q : ℚ} {k : ℕ} (m : ℤ) (h : q * 10 ^ k = (m : ℚ)) :
    pyRound q k = q := by
  unfold pyRound
  rw [h, roundHalfEven_intCast, ← h]
  have hk : (10 : ℚ) ^ k ≠ 0 := by positivity
  field_simp

theorem pyRound_mem_of_mem {q lo hi : ℚ} {k : ℕ} (mlo mhi : ℤ)
    (hlo : lo = (mlo : ℚ)) (hhi : hi = (mhi : ℚ))
    (h1 : lo ≤ q) (h2 : q ≤ hi) : lo ≤ pyRound q k ∧ pyRound q k ≤ hi := by
  have hk : (0 : ℚ) < 10 ^ k := by positivity
  have hl : (mlo * 10 ^ k : ℤ) ≤ roundHalfEven (q * 10 ^ k) := by
    apply le_roundHalfEven_of_le
    push_cast
    nlinarith [hlo ▸ h1]
  have hh : roundHalfEven (q * 10 ^ k) ≤ (mhi * 10 ^ k : ℤ) := by
    apply roundHalfEven_le_of_le
    push_cast
    nlinarith [hhi ▸ h2]
  constructor
  · rw [pyRound, hlo, le_div_iff hk]
    calc (mlo : ℚ) * 10 ^ k = ((mlo * 10 ^ k : ℤ) : ℚ) := by push_cast; ring
    _ ≤ _ := by exact_mod_cast hl
  · rw [pyRound, hhi, div_le_iff hk]
    calc (roundHalfEven (q * 10 ^ k) : ℚ) ≤ ((mhi * 10 ^ k : ℤ) : ℚ) := by exact_mod_cast hh
    _ = (mhi : ℚ) * 10 ^ k := by push_cast; ring

/-- C10: the minimal rule-score implementation in `backend/credit` and the
variant in the sentinelfraud engine compute the same function: for every
applicant they return equal scores. -/
theorem rule_score_variants_agree (req : App.CreditRequest) :
    Backend.rule_score req = App.rule_score req := rfl

/-- C2: for every applicant with valid required fields, `rule_score` is
exactly the sum of the five buckets clamped above at 1000, and the result
lies in the interval from 0 to 1000. -/
theorem rule_score_buckets_and_bounds (req : App.CreditRequest)
    (htx : 0 ≤ req.transaction_count_30d)
    (hdcf : 0 ≤ req.device_change_frequency)
    (hcb : 0 ≤ req.chargeback_count)
    (hlo : 0 ≤ req.location_risk_score)
    (hhi : req.location_risk_score ≤ 1) :
    App.rule_score req =
      min ((if 100 ≤ req.transaction_count_30d then 300
          else if 50 ≤ req.transaction_count_30d then 200
          else if 20 ≤ req.transaction_count_30d then 120 else 40) +
        (if 1000 ≤ req.avg_transaction_amount then 250
          else if 200 ≤ req.avg_transaction_amount then 150 else 60) +
        pyTrunc (req.location_risk_score * 200) +
        min (req.device_change_frequency * 40) 200 +
        (if req.previous_fraud_flag ≠ 0 then 200 else 0) +
        min (req.chargeback_count * 50) 200) 1000 ∧
    0 ≤ App.rule_score req ∧ App.rule_score req ≤ 1000 := by
  have hfloor : 0 ≤ pyTrunc (req.location_risk_score * 200) := by
    rw [pyTrunc_of_nonneg (by positivity)]
    exact Int.floor_nonneg.mpr (by positivity)
  refine ⟨rfl, ?_, ?_⟩ <;>
    (simp only [App.rule_score]; split_ifs <;> omega)

/-- C2 witness: the bounds at the concrete Scenario B applicant. -/
theorem rule_score_buckets_and_bounds_witness :
    0 ≤ App.rule_score req_scenario_b ∧ App.rule_score req_scenario_b ≤ 1000 :=
  ⟨(rule_score_buckets_and_bounds req_scenario_b (by decide) (by decide)
      (by decide) (by norm_num [req_scenario_b]) (by norm_num [req_scenario_b])).2.1,
    (rule_score_buckets_and_bounds req_scenario_b (by decide) (by decide)
      (by decide) (by norm_num [req_scenario_b]) (by norm_num [req_scenario_b])).2.2⟩

/-- C1: in the exact-arithmetic model the fused final score is the floor of
0.6 times the ML score plus 0.4 times the rule score, the risk band is High
at 700 and above, Moderate from 350 to below 700, else Low, and Scenario C
gives 518 and Moderate.  At the pair (6, 1) the exact model yields 4, the
value the specification formula demands. -/
theorem fuse_final_score_floor_and_band :
    (∀ m r : ℤ, 0 ≤ m → 0 ≤ r →
      App.fuse_final_score m r = ⌊0.6 * (m : ℚ) + 0.4 * (r : ℚ)⌋) ∧
    (∀ s : ℤ, (700 ≤ s → App.risk_band s = "High") ∧
      (350 ≤ s → s < 700 → App.risk_band s = "Moderate") ∧
      (s < 350 → App.risk_band s = "Low")) ∧
    App.fuse_final_score 600 396 = 518 ∧ App.risk_band 518 = "Moderate" ∧
    App.fuse_final_score 6 1 = 4 := by
  refine ⟨?_, ?_, ?_, ?_, ?_⟩
  · intro m r hm hr
    unfold App.fuse_final_score
    apply pyTrunc_of_nonneg
    have hm0 : (0 : ℚ) ≤ (m : ℚ) := by exact_mod_cast hm
    have hr0 : (0 : ℚ) ≤ (r : ℚ) := by exact_mod_cast hr
    nlinarith
  · intro s
    refine ⟨fun h => ?_, fun h1 h2 => ?_, fun h => ?_⟩ <;>
      (unfold App.risk_band; split_ifs <;> first | rfl | omega)
  · norm_num [App.fuse_final_score, pyTrunc]
  · norm_num [App.risk_band]
  · norm_num [App.fuse_final_score, pyTrunc]

/-- C1 witness: the fusion formula and the band at Scenario C. -/
theorem fuse_final_score_floor_and_band_witness :
    App.fuse_final_score 600 396 = ⌊0.6 * ((600 : ℤ) : ℚ) + 0.4 * ((396 : ℤ) : ℚ)⌋ ∧
    App.risk_band 518 = "Moderate" :=
  ⟨fuse_final_score_floor_and_band.1 600 396 (by decide) (by decide),
    (fuse_final_score_floor_and_band.2.1 518).2.1 (by decide) (by decide)⟩

/-- C4: the network composite total adjustment is always the clamp of the sum
of the CTC impact and the address impact to the interval from minus 120 to
120, so its absolute value never exceeds 120; Scenario B gives CTC impact 54,
address impact 50, total 104, and enhanced score 396 from base 500. -/
theorem network_total_adjustment_cap_and_scenario :
    (∀ a lr hr ns cc tn,
      (App.compute_network_adjustments a lr hr ns cc tn).total_adjustment =
        max (-120) (min 120 ((App.compute_ctc a lr hr ns).impact_adjustment +
          (App.compute_address_stability cc tn).impact_adjustment)) ∧
      -120 ≤ (App.compute_network_adjustments a lr hr ns cc tn).total_adjustment ∧
      (App.compute_network_adjustments a lr hr ns cc tn).total_adjustment ≤ 120) ∧
    (App.compute_ctc (some 750) (some 0.8) (some 0.1) (some 0.7)).impact_adjustment
      = 54 ∧
    (App.compute_address_stability (some 0) (some 24)).impact_adjustment = 50 ∧
    (App.compute_network_adjustments (some 750) (some 0.8) (some 0.1) (some 0.7)
      (some 0) (some 24)).total_adjustment = 104 ∧
    App.rule_score req_scenario_b = 500 ∧
    (App.enhanced_rule_score req_scenario_b).adjusted_score = 396 := by
  refine ⟨fun a lr hr ns cc tn => ⟨rfl, ?_, ?_⟩, ?_, ?_, ?_, ?_, ?_⟩
  · simp only [App.compute_network_adjustments]
    omega
  · simp only [App.compute_network_adjustments]
    omega
  · norm_num [App.compute_ctc, App.ctc_raw, pyTrunc, max_def, min_def]
  · norm_num [App.compute_address_stability, App.address_raw, pyTrunc, max_def,
      min_def]
  · norm_num [App.compute_network_adjustments, App.compute_ctc, App.ctc_raw,
      App.compute_address_stability, App.address_raw, pyTrunc, max_def, min_def]
  · norm_num [App.rule_score, req_scenario_b, pyTrunc, max_def, min_def]
  · norm_num [App.enhanced_rule_score, App.compute_network_adjustments,
      App.rule_score, App.compute_ctc, App.ctc_raw, App.compute_address_stability,
      App.address_raw, req_scenario_b, pyTrunc, pyRound, roundHalfEven, max_def,
      min_def]

/-- C3 (amended): for every signal evaluator, an unavailable result carries
the neutral score 0.5 and impact 0, and an available result carries impact
clamp(trunc((score - 0.5) * 2 * MAX_IMPACT)) with the per-signal cap, where
trunc is truncation toward zero (Python `int`), not rounding to nearest. -/
theorem signal_impact_truncation :
    (∀ a lr hr ns, ((App.compute_ctc a lr hr ns).available = false →
        (App.compute_ctc a lr hr ns).score = 0.5 ∧
        (App.compute_ctc a lr hr ns).impact_adjustment = 0) ∧
      ((App.compute_ctc a lr hr ns).available = true →
        (App.compute_ctc a lr hr ns).impact_adjustment =
          max (-100) (min 100 (pyTrunc ((App.ctc_raw a lr hr ns - 0.5) * 2 * 100))))) ∧
    (∀ cc tn, ((App.compute_address_stability cc tn).available = false →
        (App.compute_address_stability cc tn).score = 0.5 ∧
        (App.compute_address_stability cc tn).impact_adjustment = 0) ∧
      ((App.compute_address_stability cc tn).available = true →
        (App.compute_address_stability cc tn).impact_adjustment =
          max (-50) (min 50 (pyTrunc ((App.address_raw cc tn - 0.5) * 2 * 50))))) ∧
    (∀ cv se fr, ((App.compute_income_rhythm cv se fr).available = false →
        (App.compute_income_rhythm cv se fr).score = 0.5 ∧
        (App.compute_income_rhythm cv se fr).impact_adjustment = 0) ∧
      ((App.compute_income_rhythm cv se fr).available = true →
        (App.compute_income_rhythm cv se fr).impact_adjustment =
          max (-70) (min 70 (pyTrunc ((App.income_rhythm_raw cv se fr - 0.5) * 2 * 70))))) ∧
    (∀ sa pe es, ((App.compute_savings_cadence sa pe es).available = false →
        (App.compute_savings_cadence sa pe es).score = 0.5 ∧
        (App.compute_savings_cadence sa pe es).impact_adjustment = 0) ∧
      ((App.compute_savings_cadence sa pe es).available = true →
        (App.compute_savings_cadence sa pe es).impact_adjustment =
          max (-50) (min 50 (pyTrunc ((App.savings_cadence_raw sa pe es - 0.5) * 2 * 50))))) ∧
    (∀ te oc ri, ((App.compute_device_persistence te oc ri).available = false →
        (App.compute_device_persistence te oc ri).score = 0.5 ∧
        (App.compute_device_persistence te oc ri).impact_adjustment = 0) ∧
      ((App.compute_device_persistence te oc ri).available = true →
        (App.compute_device_persistence te oc ri).impact_adjustment =
          max (-40) (min 40 (pyTrunc ((App.device_persistence_raw te oc ri - 0.5) * 2 * 40))))) ∧
    (∀ co vo, ((App.compute_expense_elasticity co vo).available = false →
        (App.compute_expense_elasticity co vo).score = 0.5 ∧
        (App.compute_expense_elasticity co vo).impact_adjustment = 0) ∧
      ((App.compute_expense_elasticity co vo).available = true →
        (App.compute_expense_elasticity co vo).impact_adjustment =
          max (-40) (min 40 (pyTrunc ((App.expense_elasticity_raw co vo - 0.5) * 2 * 40))))) ∧
    (∀ ot va mo, ((App.compute_utility_stability ot va mo).available = false →
        (App.compute_utility_stability ot va mo).score = 0.5 ∧
        (App.compute_utility_stability ot va mo).impact_adjustment = 0) ∧
      ((App.compute_utility_stability ot va mo).available = true →
        (App.compute_utility_stability ot va mo).impact_adjustment =
          max (-35) (min 35 (pyTrunc ((App.utility_stability_raw ot va mo - 0.5) * 2 * 35))))) ∧
    (∀ rp rf di, ((App.compute_merchant_loyalty rp rf di).available = false →
        (App.compute_merchant_loyalty rp rf di).score = 0.5 ∧
        (App.compute_merchant_loyalty rp rf di).impact_adjustment = 0) ∧
      ((App.compute_merchant_loyalty rp rf di).available = true →
        (App.compute_merchant_loyalty rp rf di).impact_adjustment =
          max (-30) (min 30 (pyTrunc ((App.merchant_loyalty_raw rp rf di - 0.5) * 2 * 30))))) ∧
    (∀ ea ont la, ((App.compute_repayment_velocity ea ont la).available = false →
        (App.compute_repayment_velocity ea ont la).score = 0.5 ∧
        (App.compute_repayment_velocity ea ont la).impact_adjustment = 0) ∧
      ((App.compute_repayment_velocity ea ont la).available = true →
        (App.compute_repayment_velocity ea ont la).impact_adjustment =
          max (-50) (min 50 (pyTrunc ((App.repayment_velocity_raw ea ont la - 0.5) * 2 * 50))))) ∧
    (∀ li ic di, ((App.compute_geo_resilience li ic di).available = false →
        (App.compute_geo_resilience li ic di).score = 0.5 ∧
        (App.compute_geo_resilience li ic di).impact_adjustment = 0) ∧
      ((App.compute_geo_resilience li ic di).available = true →
        (App.compute_geo_resilience li ic di).impact_adjustment =
          max (-40) (min 40 (pyTrunc ((App.geo_resilience_raw li ic di - 0.5) * 2 * 40))))) := by
  refine ⟨?_, ?_, ?_, ?_, ?_, ?_, ?_, ?_, ?_, ?_⟩
  · intro a lr hr ns
    simp only [App.compute_ctc]
    split <;> simp
  · intro cc tn
    simp only [App.compute_address_stability]
    split <;> simp
  · intro cv se fr
    simp only [App.compute_income_rhythm]
    split <;> simp
  · intro sa pe es
    simp only [App.compute_savings_cadence]
    split <;> simp
  · intro te oc ri
    simp only [App.compute_device_persistence]
    split <;> simp
  · intro co vo
    simp only [App.compute_expense_elasticity]
    split <;> simp
  · intro ot va mo
    simp only [App.compute_utility_stability]
    split <;> simp
  · intro rp rf di
    simp only [App.compute_merchant_loyalty]
    split <;> simp
  · intro ea ont la
    simp only [App.compute_repayment_velocity]
    split <;> simp
  · intro li ic di
    simp only [App.compute_geo_resilience]
    split <;> simp

/-- C3 witness: the unavailable CTC carries score 0.5 and impact 0, and the
available Scenario A CTC satisfies the truncation impact formula. -/
theorem signal_impact_truncation_witness :
    ((App.compute_ctc none none none none).score = 0.5 ∧
      (App.compute_ctc none none none none).impact_adjustment = 0) ∧
    (App.compute_ctc (some 750) (some 0.8) (some 0.1) (some 0.7)).impact_adjustment =
      max (-100) (min 100 (pyTrunc
        ((App.ctc_raw (some 750) (some 0.8) (some 0.1) (some 0.7) - 0.5) * 2 * 100))) :=
  ⟨(signal_impact_truncation.1 none none none none).1 rfl,
    (signal_impact_truncation.1 (some 750) (some 0.8) (some 0.1) (some 0.7)).2 rfl⟩

/-- C3 counterexample: at the single input low-risk ratio 0.71 the CTC score
is 0.593, the code impact is trunc(18.6) = 18, while the claimed
round-to-nearest formula would give 19. -/
theorem ctc_impact_rounding_counterexample :
    (App.compute_ctc none (some 0.71) none none).impact_adjustment = 18 ∧
    max (-100) (min 100 (round (((App.compute_ctc none (some 0.71) none none).score
      - 0.5) * 2 * 100))) = 19 ∧
    (App.compute_ctc none (some 0.71) none none).impact_adjustment ≠
      max (-100) (min 100 (round (((App.compute_ctc none (some 0.71) none none).score
        - 0.5) * 2 * 100))) := by
  refine ⟨?_, ?_, ?_⟩ <;>
    norm_num [App.compute_ctc, App.ctc_raw, pyTrunc, pyRound, roundHalfEven,
      round_eq, max_def, min_def]

/-- C6 (amended): each evaluator is available exactly when at least one of its
defining fields is present; for the three-field evaluators only the first two
fields are defining, the auxiliary third field does not affect availability. -/
theorem signal_availability_iff :
    (∀ a lr hr ns : Option ℚ, (App.compute_ctc a lr hr ns).available = true ↔
      ¬(a = none ∧ lr = none ∧ hr = none ∧ ns = none)) ∧
    (∀ cc tn : Option ℤ, (App.compute_address_stability cc tn).available = true ↔
      ¬(cc = none ∧ tn = none)) ∧
    (∀ (cv se : Option ℚ) (fr : Option ℤ),
      (App.compute_income_rhythm cv se fr).available = true ↔
        ¬(cv = none ∧ se = none)) ∧
    (∀ (sa : Option ℚ) (pe : Option ℤ) (es : Option Bool),
      (App.compute_savings_cadence sa pe es).available = true ↔
        ¬(sa = none ∧ pe = none)) ∧
    (∀ te oc ri : Option ℤ,
      (App.compute_device_persistence te oc ri).available = true ↔
        ¬(te = none ∧ oc = none)) ∧
    (∀ co vo : Option ℚ, (App.compute_expense_elasticity co vo).available = true ↔
      ¬(co = none ∧ vo = none)) ∧
    (∀ (ot va : Option ℚ) (mo : Option ℤ),
      (App.compute_utility_stability ot va mo).available = true ↔
        ¬(ot = none ∧ va = none)) ∧
    (∀ rp rf di : Option ℚ, (App.compute_merchant_loyalty rp rf di).available = true ↔
      ¬(rp = none ∧ rf = none)) ∧
    (∀ ea ont la : Option ℚ,
      (App.compute_repayment_velocity ea ont la).available = true ↔
        ¬(ea = none ∧ ont = none)) ∧
    (∀ li ic di : Option ℚ, (App.compute_geo_resilience li ic di).available = true ↔
      ¬(li = none ∧ ic = none)) := by
  refine ⟨?_, ?_, ?_, ?_, ?_, ?_, ?_, ?_, ?_, ?_⟩
  · intro a lr hr ns
    simp only [App.compute_ctc]
    split
    · rename_i h
      simp only [Bool.and_eq_true, Option.isNone_iff_eq_none] at h
      simp [h]
    · rename_i h
      simp only [Bool.and_eq_true, Option.isNone_iff_eq_none] at h
      constructor
      · intro _ hc
        exact h ⟨⟨⟨hc.1, hc.2.1⟩, hc.2.2.1⟩, hc.2.2.2⟩
      · intro _
        rfl
  · intro cc tn
    simp only [App.compute_address_stability]
    split <;> rename_i h <;>
      simp only [Bool.and_eq_true, Option.isNone_iff_eq_none] at h <;> simp [h]
  · intro cv se fr
    simp only [App.compute_income_rhythm]
    split <;> rename_i h <;>
      simp only [Bool.and_eq_true, Option.isNone_iff_eq_none] at h <;> simp [h]
  · intro sa pe es
    simp only [App.compute_savings_cadence]
    split <;> rename_i h <;>
      simp only [Bool.and_eq_true, Option.isNone_iff_eq_none] at h <;> simp [h]
  · intro te oc ri
    simp only [App.compute_device_persistence]
    split <;> rename_i h <;>
      simp only [Bool.and_eq_true, Option.isNone_iff_eq_none] at h <;> simp [h]
  · intro co vo
    simp only [App.compute_expense_elasticity]
    split <;> rename_i h <;>
      simp only [Bool.and_eq_true, Option.isNone_iff_eq_none] at h <;> simp [h]
  · intro ot va mo
    simp only [App.compute_utility_stability]
    split <;> rename_i h <;>
      simp only [Bool.and_eq_true, Option.isNone_iff_eq_none] at h <;> simp [h]
  · intro rp rf di
    simp only [App.compute_merchant_loyalty]
    split <;> rename_i h <;>
      simp only [Bool.and_eq_true, Option.isNone_iff_eq_none] at h <;> simp [h]
  · intro ea ont la
    simp only [App.compute_repayment_velocity]
    split <;> rename_i h <;>
      simp only [Bool.and_eq_true, Option.isNone_iff_eq_none] at h <;> simp [h]
  · intro li ic di
    simp only [App.compute_geo_resilience]
    split <;> rename_i h <;>
      simp only [Bool.and_eq_true, Option.isNone_iff_eq_none] at h <;> simp [h]

/-- C6 counterexample: income rhythm with only the income-frequency field
present, and savings cadence with only the escrow-commitment field present,
are both unavailable, although one field feeding the signal is present. -/
theorem third_field_unavailable_counterexample :
    (App.compute_income_rhythm none none (some 6)).available = false ∧
    (App.compute_savings_cadence none none (some true)).available = false :=
  ⟨rfl, rfl⟩

/-- C8 (amended): for every CTC input the returned score lies in the unit
interval and the impact lies between minus 100 and 100; for an available
result the impact is 0 exactly when the unrounded ctc score lies strictly
between 0.495 and 0.505 (the truncation deadband), not only at 0.5. -/
theorem ctc_bounds_and_zero_impact :
    ∀ a lr hr ns,
      0 ≤ (App.compute_ctc a lr hr ns).score ∧
      (App.compute_ctc a lr hr ns).score ≤ 1 ∧
      -100 ≤ (App.compute_ctc a lr hr ns).impact_adjustment ∧
      (App.compute_ctc a lr hr ns).impact_adjustment ≤ 100 ∧
      ((App.compute_ctc a lr hr ns).available = true →
        ((App.compute_ctc a lr hr ns).impact_adjustment = 0 ↔
          99/200 < App.ctc_raw a lr hr ns ∧ App.ctc_raw a lr hr ns < 101/200)) := by
  intro a lr hr ns
  have hq0 : 0 ≤ App.ctc_raw a lr hr ns := le_max_left 0 _
  have hq1 : App.ctc_raw a lr hr ns ≤ 1 := by
    simp only [App.ctc_raw]
    exact max_le (by norm_num) (min_le_left _ _)
  cases hb : (a.isNone && lr.isNone && hr.isNone && ns.isNone) with
  | true =>
    have h1 : App.compute_ctc a lr hr ns =
        { score := 0.5, available := false, components := none,
          impact_adjustment := 0 } := by
      simp [App.compute_ctc, hb]
    rw [h1]
    exact ⟨by norm_num, by norm_num, by norm_num, by norm_num,
      fun habs => absurd habs (by simp)⟩
  | false =>
    have hsc : (App.compute_ctc a lr hr ns).score =
        pyRound (App.ctc_raw a lr hr ns) 3 := by
      simp [App.compute_ctc, hb]
    have himp : (App.compute_ctc a lr hr ns).impact_adjustment =
        max (-100) (min 100 (pyTrunc ((App.ctc_raw a lr hr ns - 0.5) * 2 * 100))) := by
      simp [App.compute_ctc, hb]
    have hmem := pyRound_mem_of_mem (k := 3) 0 1 (by norm_num) (by norm_num) hq0 hq1
    rw [hsc, himp]
    refine ⟨hmem.1, hmem.2, by omega, by omega, fun _ => ?_⟩
    have hzero :
        max (-100) (min 100 (pyTrunc ((App.ctc_raw a lr hr ns - 0.5) * 2 * 100))) = 0 ↔
          pyTrunc ((App.ctc_raw a lr hr ns - 0.5) * 2 * 100) = 0 := by
      omega
    rw [hzero, pyTrunc_eq_zero_iff]
    constructor
    · rintro ⟨h1, h2⟩
      exact ⟨by linarith, by linarith⟩
    · rintro ⟨h1, h2⟩
      exact ⟨by linarith, by linarith⟩

/-- C8 witness: the deadband characterization at the concrete available input
(606, 0.5, 0.5, 0.5). -/
theorem ctc_bounds_and_zero_impact_witness :
    (App.compute_ctc (some 606) (some 0.5) (some 0.5) (some 0.5)).impact_adjustment = 0 ↔
      99/200 < App.ctc_raw (some 606) (some 0.5) (some 0.5) (some 0.5) ∧
        App.ctc_raw (some 606) (some 0.5) (some 0.5) (some 0.5) < 101/200 :=
  (ctc_bounds_and_zero_impact (some 606) (some 0.5) (some 0.5) (some 0.5)).2.2.2.2 rfl

/-- C8 counterexample: at input (606, 0.5, 0.5, 0.5) the ctc score is 0.504,
different from 0.5, yet the impact is 0 — the claimed equivalence between
impact 0 and score 0.5 fails. -/
theorem ctc_zero_impact_offcenter_counterexample :
    (App.compute_ctc (some 606) (some 0.5) (some 0.5) (some 0.5)).impact_adjustment = 0 ∧
    (App.compute_ctc (some 606) (some 0.5) (some 0.5) (some 0.5)).score = 0.504 ∧
    (App.compute_ctc (some 606) (some 0.5) (some 0.5) (some 0.5)).score ≠ 0.5 := by
  refine ⟨?_, ?_, ?_⟩ <;>
    norm_num [App.compute_ctc, App.ctc_raw, pyTrunc, pyRound, roundHalfEven,
      max_def, min_def]

/-- C5: for an available-signal count up to 8 and a final score between 0 and
1000, the uncertainty percentage is max(5, 25 - count * 2.5) (25 at count 0,
5 at count 8), the uncertainty points are the floor of final score times the
percentage over 100, the score range is the final score plus or minus the
points clamped to 0-1000, and the probability-of-default bounds are the
estimate plus or minus half the percentage clamped to 0-100. -/
theorem assess_full_uncertainty_band (n : ℕ) (hn : n ≤ 8) (f : ℤ)
    (hf0 : 0 ≤ f) (hf1 : f ≤ 1000) (p : ℚ) (hp0 : 0 ≤ p) (hp1 : p ≤ 1) :
    App.uncertainty_pct n = max 5 (25 - (n : ℚ) * 2.5) ∧
    App.uncertainty_pct 0 = 25 ∧ App.uncertainty_pct 8 = 5 ∧
    App.uncertainty_points f n = ⌊(f : ℚ) * App.uncertainty_pct n / 100⌋ ∧
    App.score_range_lower f n =
      max 0 (min 1000 (f - App.uncertainty_points f n)) ∧
    App.score_range_upper f n =
      min 1000 (max 0 (f + App.uncertainty_points f n)) ∧
    App.pd_lower p n =
      max 0 (min 100 (App.pd_estimate p - App.uncertainty_pct n / 2)) ∧
    App.pd_upper p n =
      min 100 (max 0 (App.pd_estimate p + App.uncertainty_pct n / 2)) := by
  have hn8 : (n : ℚ) ≤ 8 := by exact_mod_cast hn
  have hpct : App.uncertainty_pct n = 25 - (n : ℚ) * 2.5 := by
    unfold App.uncertainty_pct
    rw [max_eq_right (by linarith)]
  have hpct5 : 5 ≤ App.uncertainty_pct n := le_max_left 5 _
  have hpct25 : App.uncertainty_pct n ≤ 25 := by
    have hnn : (0 : ℚ) ≤ (n : ℚ) := Nat.cast_nonneg n
    rw [hpct]
    nlinarith
  have hfq : (0 : ℚ) ≤ (f : ℚ) := by exact_mod_cast hf0
  have hprod : 0 ≤ (f : ℚ) * App.uncertainty_pct n / 100 :=
    div_nonneg (mul_nonneg hfq (by linarith)) (by norm_num)
  have hpts : App.uncertainty_points f n = ⌊(f : ℚ) * App.uncertainty_pct n / 100⌋ := by
    unfold App.uncertainty_points
    exact pyTrunc_of_nonneg hprod
  have hpts0 : 0 ≤ App.uncertainty_points f n := by
    rw [hpts]
    exact Int.floor_nonneg.mpr hprod
  have hpd : App.pd_estimate p * 10 ^ 2 = (roundHalfEven (p * 100 * 10 ^ 2) : ℚ) := by
    unfold App.pd_estimate pyRound
    field_simp
  have hpd0 : 0 ≤ App.pd_estimate p ∧ App.pd_estimate p ≤ 100 := by
    unfold App.pd_estimate
    exact pyRound_mem_of_mem (k := 2) 0 100 (by norm_num) (by norm_num)
      (by positivity) (by nlinarith)
  have hhalf : App.uncertainty_pct n / 2 * 10 ^ 2 = ((1250 - 125 * n : ℤ) : ℚ) := by
    rw [hpct]
    push_cast
    ring
  have hlowid : pyRound (App.pd_estimate p - App.uncertainty_pct n / 2) 2 =
      App.pd_estimate p - App.uncertainty_pct n / 2 := by
    apply pyRound_eq_self (roundHalfEven (p * 100 * 10 ^ 2) - (1250 - 125 * n))
    push_cast
    rw [sub_mul, hpd, hhalf]
    push_cast
    ring
  have hupid : pyRound (App.pd_estimate p + App.uncertainty_pct n / 2) 2 =
      App.pd_estimate p + App.uncertainty_pct n / 2 := by
    apply pyRound_eq_self (roundHalfEven (p * 100 * 10 ^ 2) + (1250 - 125 * n))
    push_cast
    rw [add_mul, hpd, hhalf]
    push_cast
    ring
  refine ⟨rfl, by norm_num [App.uncertainty_pct], by norm_num [App.uncertainty_pct],
    hpts, ?_, ?_, ?_, ?_⟩
  · unfold App.score_range_lower
    omega
  · unfold App.score_range_upper
    omega
  · unfold App.pd_lower
    rw [hlowid, min_eq_right (by linarith)]
  · unfold App.pd_upper
    rw [hupid, max_eq_right (by linarith)]

/-- C5 witness: the uncertainty-point formula and the pd-lower clamp at the
concrete inputs count 8, final score 518, probability one half. -/
theorem assess_full_uncertainty_band_witness :
    App.uncertainty_points 518 8 = ⌊((518 : ℤ) : ℚ) * App.uncertainty_pct 8 / 100⌋ ∧
    App.pd_lower (1/2) 8 =
      max 0 (min 100 (App.pd_estimate (1/2) - App.uncertainty_pct 8 / 2)) :=
  ⟨(assess_full_uncertainty_band 8 (by decide) 518 (by decide) (by decide)
      (1/2) (by norm_num) (by norm_num)).2.2.2.1,
    (assess_full_uncertainty_band 8 (by decide) 518 (by decide) (by decide)
      (1/2) (by norm_num) (by norm_num)).2.2.2.2.2.2.1⟩

theorem sig_entry_weight_pos {x : String × ℚ × ℚ × ℤ} {name : String}
    {w score : ℚ} {impact : ℤ} {avail : Bool} (hw : 0 < w)
    (hx : x ∈ App.sig_entry name w avail score impact) : 0 < x.2.1 := by
  unfold App.sig_entry at hx
  split at hx
  · simp only [List.mem_singleton] at hx
    rw [hx]
    exact hw
  · simp at hx

theorem stability_entries_weight_pos (ir : Option App.IncomeRhythmResult)
    (sc : Option App.SavingsCadenceResult) (dp : Option App.DevicePersistenceResult)
    (ee : Option App.ExpenseElasticityResult) (us : Option App.UtilityStabilityResult)
    (ml : Option App.MerchantLoyaltyResult) (rv : Option App.RepaymentVelocityResult)
    (gr : Option App.GeoResilienceResult) {x : String × ℚ × ℚ × ℤ}
    (hx : x ∈ App.stability_entries ir sc dp ee us ml rv gr) : 0 < x.2.1 := by
  unfold App.stability_entries at hx
  simp only [List.mem_append] at hx
  rcases hx with ((((((h | h) | h) | h) | h) | h) | h) | h
  · cases ir with
    | none => simp at h
    | some r => exact sig_entry_weight_pos (by norm_num) h
  · cases sc with
    | none => simp at h
    | some r => exact sig_entry_weight_pos (by norm_num) h
  · cases dp with
    | none => simp at h
    | some r => exact sig_entry_weight_pos (by norm_num) h
  · cases ee with
    | none => simp at h
    | some r => exact sig_entry_weight_pos (by norm_num) h
  · cases us with
    | none => simp at h
    | some r => exact sig_entry_weight_pos (by norm_num) h
  · cases ml with
    | none => simp at h
    | some r => exact sig_entry_weight_pos (by norm_num) h
  · cases rv with
    | none => simp at h
    | some r => exact sig_entry_weight_pos (by norm_num) h
  · cases gr with
    | none => simp at h
    | some r => exact sig_entry_weight_pos (by norm_num) h

/-- C7: with zero available behavioral signals the stability composite is the
neutral 0.5 with total adjustment 0, and whenever any signal is available the
renormalizing weight sum is strictly positive, so the guarded division never
divides by zero and the composite is total. -/
theorem stability_composite_zero_and_guard (ir : Option App.IncomeRhythmResult)
    (sc : Option App.SavingsCadenceResult) (dp : Option App.DevicePersistenceResult)
    (ee : Option App.ExpenseElasticityResult) (us : Option App.UtilityStabilityResult)
    (ml : Option App.MerchantLoyaltyResult) (rv : Option App.RepaymentVelocityResult)
    (gr : Option App.GeoResilienceResult) :
    ((App.compute_stability_composite ir sc dp ee us ml rv gr).available_count = 0 →
      (App.compute_stability_composite ir sc dp ee us ml rv gr).composite_score = 0.5 ∧
      (App.compute_stability_composite ir sc dp ee us ml rv gr).total_adjustment = 0) ∧
    (App.stability_entries ir sc dp ee us ml rv gr ≠ [] →
      0 < ((App.stability_entries ir sc dp ee us ml rv gr).map
        (fun e => e.2.1)).sum) := by
  constructor
  · intro hc
    by_cases he : App.stability_entries ir sc dp ee us ml rv gr = []
    · simp [App.compute_stability_composite, he]
    · exfalso
      have hlen : (App.compute_stability_composite ir sc dp ee us ml rv gr).available_count =
          (App.stability_entries ir sc dp ee us ml rv gr).length := by
        simp [App.compute_stability_composite, List.isEmpty_iff, he]
      rw [hlen] at hc
      exact he (List.length_eq_zero.mp hc)
  · intro he
    apply List.sum_pos
    · intro x hxm
      simp only [List.mem_map] at hxm
      obtain ⟨e, hem, hex⟩ := hxm
      rw [← hex]
      exact stability_entries_weight_pos ir sc dp ee us ml rv gr hem
    · rw [ne_eq, List.map_eq_nil]
      exact he

/-- C7 witness: the zero-available fallback at the all-absent input, and the
positive weight sum with one available income-rhythm signal. -/
theorem stability_composite_zero_and_guard_witness :
    ((App.compute_stability_composite none none none none none none none none).composite_score = 0.5 ∧
      (App.compute_stability_composite none none none none none none none none).total_adjustment = 0) ∧
    0 < ((App.stability_entries (some ir_stable)
        none none none none none none none).map (fun e => e.2.1)).sum :=
  ⟨(stability_composite_zero_and_guard none none none none none none none none).1 rfl,
    (stability_composite_zero_and_guard (some ir_stable)
        none none none none none none none).2
      (by simp [App.stability_entries, App.sig_entry, ir_stable])⟩

/-- C9 (amended): the backend reason-code generator evaluates all six
threshold rules in the fixed order and returns exactly the codes whose
thresholds fire; the sentinelfraud-engine variant evaluates only the first
four rules, and appending the two omitted rules reproduces the backend. -/
theorem reason_codes_six_rules (req : App.CreditRequest) :
    Backend.generate_reason_codes req = spec_reason_codes req ∧
    Backend.generate_reason_codes req =
      App.generate_reason_codes req ++
        (if 4 ≤ req.device_change_frequency then ["R05: Frequent device changes"]
          else []) ++
        (if req.account_age_months < 6 then
          ["R03: New account (less than 6 months)"] else []) := by
  constructor
  · simp only [Backend.generate_reason_codes, spec_reason_codes]
    by_cases h1 : req.previous_fraud_flag ≠ 0 <;>
      by_cases h2 : 1 ≤ req.chargeback_count <;>
      by_cases h3 : (0.7 : ℚ) ≤ req.location_risk_score <;>
      by_cases h4 : 100 ≤ req.transaction_count_30d ∧ req.avg_transaction_amount < 50 <;>
      by_cases h5 : 4 ≤ req.device_change_frequency <;>
      by_cases h6 : req.account_age_months < 6 <;>
      simp [h1, h2, h3, h4, h5, h6]
  · rfl

/-- C9 counterexample: an applicant with five device changes and a two-month
account fires the device-change and account-age rules, yet the sentinelfraud
variant returns no codes while the backend variant returns both. -/
theorem reason_codes_four_rule_counterexample :
    4 ≤ req_new_device.device_change_frequency ∧
    req_new_device.account_age_months < 6 ∧
    App.generate_reason_codes req_new_device = [] ∧
    Backend.generate_reason_codes req_new_device =
      ["R05: Frequent device changes", "R03: New account (less than 6 months)"] := by
  refine ⟨by decide, by decide, ?_, ?_⟩ <;>
    norm_num [App.generate_reason_codes, Backend.generate_reason_codes, req_new_device]
